import Mathlib

/-!
Shallow embedding of the DepotDownloader engine (src/main.py) for checking
the natural-language specification against the code.

Bytes are modelled as `List Nat` (each element a byte value).  External
collaborators (the LZMA decompressor, the ZIP reader, AES decryption, the
Steam login client, the HTTP stack and the filesystem) are parameters of
the embedded functions; everything written in the repository itself is
translated directly from `src/main.py`.
-/

namespace DepotDL

/-- Error kinds raised by `ChunkDownload.get_chunk`: the `SteamError`s for an
HTTP 4xx status, a bad VZ footer, an unsupported VZ version, a CRC mismatch,
and the ZIP-layer exceptions (`BadZipFile` / `IndexError`). -/
inductive ChunkError where
  | httpClient (code : Nat)
  | badFooter
  | badVersion
  | crcMismatch
  | zipError
  deriving DecidableEq, Repr

/-- Little-endian 32-bit read, as performed by `struct.unpack('<II', ...)`
on each 4-byte half of the slice. -/
def le32 (bs : List Nat) : Nat :=
  match bs with
  | [b0, b1, b2, b3] => b0 + 256 * b1 + 65536 * b2 + 16777216 * b3
  | _ => 0

/-- Python negative-index slice helper: `lastN n l` is `l[-n:]`
(for `n ≤ l.length`; shorter lists clamp like Python does). -/
def lastN (n : Nat) (l : List α) : List α := l.drop (l.length - n)

/-- One shift-xor round of the reflected CRC-32 (polynomial 0xEDB88320),
as computed bitwise by `binascii.crc32`. -/
def crc32Round (c : Nat) : Nat :=
  if c % 2 = 1 then Nat.xor 0xEDB88320 (c / 2) else c / 2

/-- `binascii.crc32` over a byte list: initial value 0xFFFFFFFF, eight
rounds per byte, final complement. -/
def crc32 (l : List Nat) : Nat :=
  Nat.xor (l.foldl (fun c b => crc32Round^[8] (Nat.xor c b)) 0xFFFFFFFF) 0xFFFFFFFF

/-- The decode half of `ChunkDownload.get_chunk` (src/main.py lines 106-125),
applied to the decrypted blob `data`.

`dec props body` models `lzma.LZMADecompressor(lzma.FORMAT_RAW,
filters=[lzma._decode_filter_properties(lzma.FILTER_LZMA1, props)])
.decompress(body)`; `unzip data` models parsing `data` as a ZIP archive and
returning the uncompressed bytes of the entries of `zf.filelist` in order
(`none` when the bytes are not a valid archive).

Byte literals: 86 = 'V', 90 = 'Z', 97 = 'a', 122 = 'z', 118 = 'v'.
Python slices are rendered with drop/take: `data[7:12]` is
`(data.drop 7).take 5`, `data[-10:-2]` is `(lastN 10 data).take 8`,
`data[12:-9]` is `(data.drop 12).take (data.length - 9 - 12)`.
(The model is intended for well-formed blobs of length at least 21, the
regime the claims quantify over; on shorter `VZ`-prefixed blobs CPython
would raise `struct.error` instead.) -/
def decodeChunk (dec : List Nat → List Nat → List Nat)
    (unzip : List Nat → Option (List (List Nat)))
    (data : List Nat) : Except ChunkError (List Nat) :=
  if data.take 2 = [86, 90] then
    if lastN 2 data ≠ [122, 118] then .error .badFooter
    else if (data.drop 2).take 1 ≠ [97] then .error .badVersion
    else
      let vzfilter := (data.drop 7).take 5
      let footer := (lastN 10 data).take 8
      let checksum := le32 (footer.take 4)
      let decompressedSize := le32 (footer.drop 4)
      let out := (dec vzfilter ((data.drop 12).take (data.length - 9 - 12))).take decompressedSize
      if crc32 out ≠ checksum then .error .crcMismatch
      else .ok out
  else
    match unzip data with
    | some (e :: _) => .ok e
    | some [] => .error .zipError
    | none => .error .zipError

/-- One chunk record of a file mapping (`steam.core.manifest` payload): SHA-1
identifier bytes, absolute offset in the owning file, original length. -/
structure Chunk where
  sha : List Nat
  offset : Nat
  cb_original : Nat
  deriving DecidableEq, Repr

/-- One file mapping of the manifest payload: raw path (backslash separated),
flags bitfield (64 marks a directory entry), total size, chunk list. -/
structure Mapping where
  filename : String
  flags : Nat
  size : Nat
  chunks : List Chunk
  deriving DecidableEq, Repr

/-- Lower-case hex digit, as produced by `bytes.hex()`. -/
def hexDigit (n : Nat) : Char :=
  if n < 10 then Char.ofNat (48 + n) else Char.ofNat (87 + n)

/-- `bytes.hex()`: lower-case hex string of a byte list. -/
def bytesHex (l : List Nat) : String :=
  String.mk (l.foldr (fun b acc => hexDigit (b / 16 % 16) :: hexDigit (b % 16) :: acc) [])

/-- The resume-ledger key of a chunk: `f'{chunk.offset}_{chunk.sha.hex()}'`. -/
def chunkKey (c : Chunk) : String :=
  toString c.offset ++ "_" ++ bytesHex c.sha

/-- `mapping.filename.replace('\\', '/')`: separator normalization. -/
def normPath (s : String) : String :=
  String.mk (s.toList.map (fun c => if c = '\\' then '/' else c))

/-- `PurePath.parent` relative to the save root: the path with its last
component removed (`"."` when there is no separator). -/
def parentDir (p : String) : String :=
  match (p.toList.reverse).dropWhile (fun c => c != '/') with
  | [] => "."
  | _ :: tl => String.mk tl.reverse

/-- A Python `dict` of ledger entries, as an insertion-ordered association
list (`json.load` of `<depot_id>.json` produces such a dict). -/
def dictLookup (d : List (String × List String)) (k : String) : Option (List String) :=
  (d.find? (fun p => p.1 == k)).map (fun p => p.2)

/-- Assignment `d[k] = v` on a Python dict: replace in place, else append. -/
def dictInsert (d : List (String × List String)) (k : String) (v : List String) :
    List (String × List String) :=
  match d with
  | [] => [(k, v)]
  | p :: tl => if p.1 == k then (k, v) :: tl else p :: dictInsert tl k v

/-- Filesystem effects performed by `DepotDownloader.download` while laying
out a mapping: `path.parent.mkdir(parents=True, exist_ok=True)` and
`path.touch(exist_ok=True)`. -/
inductive FsAction where
  | mkdirParents (dir : String)
  | touch (file : String)
  deriving DecidableEq, Repr

/-- Scheduler state threaded through the per-mapping loop of
`DepotDownloader.download`: the in-memory ledger `chunk_dict`, the aggregate
progress counter `total_size`, the jobs submitted to the worker pool so far,
the filesystem actions performed so far, and the number of
`save_chunk_dict` checkpoint calls. -/
structure SchedState where
  chunkDict : List (String × List String)
  totalSize : Nat
  scheduled : List (String × Chunk)
  actions : List FsAction
  saves : Nat
  deriving DecidableEq, Repr

/-- `mapping.chunks.sort(key=lambda x: x.offset)`: a stable ascending sort
by offset (Python's sort is stable; any stable sort gives the same list). -/
def sortedChunks (m : Mapping) : List Chunk :=
  m.chunks.insertionSort (fun a b => a.offset ≤ b.offset)

/-- The part of the per-mapping loop body before the chunk loop
(src/main.py lines 260-272): for a regular file that is absent on disk,
reset a stale ledger entry (and checkpoint), create the parent directory
and touch the file; in all cases initialise a missing ledger entry to `[]`.
`pathExists`/`parentExists` are the snapshots of `path.exists()` and
`path.parent.exists()` supplied by the filesystem. -/
def preChunkState (pathExists parentExists : String → Bool) (m : Mapping)
    (st : SchedState) : SchedState :=
  let filepa := normPath m.filename
  let st1 :=
    if m.flags ≠ 64 then
      if pathExists filepa = false then
        let sta :=
          if (dictLookup st.chunkDict filepa).isSome then
            { st with chunkDict := dictInsert st.chunkDict filepa [], saves := st.saves + 1 }
          else st
        let stb :=
          if parentExists filepa = false then
            { sta with actions := sta.actions ++ [FsAction.mkdirParents (parentDir filepa)] }
          else sta
        if pathExists filepa = false then
          { stb with actions := stb.actions ++ [FsAction.touch filepa] }
        else stb
      else st
    else st
  if (dictLookup st1.chunkDict filepa).isNone then
    { st1 with chunkDict := dictInsert st1.chunkDict filepa [] }
  else st1

/-- The chunk loop of `DepotDownloader.download` (src/main.py lines 273-280):
a chunk whose ledger key is absent from the file's entry is submitted to the
pool; one whose key is present only counts toward the progress total. -/
def chunkLoop (filepa : String) (chunks : List Chunk) (st : SchedState) : SchedState :=
  chunks.foldl
    (fun s c =>
      if ((dictLookup s.chunkDict filepa).getD []).contains (chunkKey c) = false then
        { s with scheduled := s.scheduled ++ [(filepa, c)] }
      else { s with totalSize := s.totalSize + c.cb_original })
    st

/-- One iteration of the per-mapping loop of `DepotDownloader.download`
(src/main.py lines 257-280). -/
def processMapping (pathExists parentExists : String → Bool) (m : Mapping)
    (st : SchedState) : SchedState :=
  chunkLoop (normPath m.filename) (sortedChunks m) (preChunkState pathExists parentExists m st)

/-- The ledger entry consulted by the chunk loop for a mapping: the entry of
the normalized path after the pre-steps (stale-entry reset and `[]` init). -/
def schedEntry (pathExists parentExists : String → Bool) (m : Mapping)
    (st : SchedState) : List String :=
  (dictLookup (preChunkState pathExists parentExists m st).chunkDict (normPath m.filename)).getD []

/-- `self.servers.rotate(-1)` on the `deque`: move the head to the tail
(a rotate-left by one). -/
def rotateLeft (l : List α) : List α := l.drop 1 ++ l.take 1

/-- The ring part of `DepotDownloader.get_content_server` (src/main.py lines
212-218) on an already-populated pool: when `rotate` is true the ring is
first rotated left by one; the endpoint returned is then `self.servers[0]`.
Lazy population and the token branch are modelled separately. -/
def acquireServer (ring : List String) (rotate : Bool) : Option String × List String :=
  let ring := if rotate then rotateLeft ring else ring
  (ring.head?, ring)

/-- The server ring after K calls to `get_content_server(rotate=True)`. -/
def ringAfter (K : Nat) (ring : List String) : List String :=
  rotateLeft^[K] ring

/-- A CDN auth token record (`CMsgClientGetCDNAuthTokenResponse`): opaque
token string, absolute expiration time in epoch seconds, result status
(`EResult.OK` is the numeric value 1). -/
structure CdnToken where
  token : String
  expiration_time : Nat
  eresult : Nat
  deriving DecidableEq, Repr

/-- `self.servers_token[server_address]` on the insertion-ordered token map
(`none` models the `KeyError`). -/
def lookupToken (tokens : List (String × CdnToken)) (s : String) : Option CdnToken :=
  (tokens.find? (fun p => p.1 == s)).map (fun p => p.2)

/-- Result of the authenticated token branch of `get_content_server`: the
endpoint and token record whose `.token` is appended to chunk URLs, plus
whether a background refresh thread was spawned. -/
structure AcquireOut where
  server : String
  tok : CdnToken
  spawnedRefresh : Bool
  deriving DecidableEq, Repr

/-- The authenticated-mode token branch of `DepotDownloader.get_content_server`
(src/main.py lines 219-244) for head endpoint `s` at time `now`.

`refresh` is the outcome of the synchronous `self.update_cdn_token(s)` call
(`none` models a `SteamError`); `updating` is the `cdn_auth_code_updating`
single-flight flag; `tokens` is `self.servers_token` in insertion order.
`none` models an escaping exception (failed `assert`, `KeyError`, or the
re-raised refresh error when the for-else scan finds no token with result
OK).  On a refresh failure the for-else loop rebinds `server_address` and
`cdn_auth_token` to the first map item whose `eresult` is OK — note that it
checks only `eresult`, never the expiration.  The `timeleft < 300` branch
spawns a background refresh thread and returns the current token. -/
def acquireToken (now : Int) (refresh : Option CdnToken) (updating : Bool)
    (tokens : List (String × CdnToken)) (s : String) : Option AcquireOut :=
  match lookupToken tokens s with
  | none => none
  | some t0 =>
    if t0.eresult ≠ 1 then none
    else if t0.expiration_time ≠ 0 then
      if (t0.expiration_time : Int) - now < 60 then
        match refresh with
        | some t1 => some ⟨s, t1, false⟩
        | none =>
          match tokens.find? (fun p => p.2.eresult == 1) with
          | some p => some ⟨p.1, p.2, false⟩
          | none => none
      else if (t0.expiration_time : Int) - now < 300 then some ⟨s, t0, !updating⟩
      else some ⟨s, t0, false⟩
    else some ⟨s, t0, false⟩

/-- Outcome of one `self.web.get(url, timeout=10)` attempt: a transport
exception, or an HTTP response with status code and body (in requests,
`resp.ok` means status < 400). -/
inductive HResp where
  | exc
  | status (code : Nat) (body : List Nat)
  deriving DecidableEq, Repr

/-- Python `repr` of a string (adequate for strings without quotes or
characters needing escapes, which covers endpoint URLs and tokens here). -/
def pyReprStr (s : String) : String := "'" ++ s ++ "'"

/-- Python `str()` of a pair of strings, as an f-string interpolates it:
`str(('h', 't'))` is `"('h', 't')"`. -/
def pyStrPair (a b : String) : String :=
  "(" ++ pyReprStr a ++ ", " ++ pyReprStr b ++ ")"

/-- The chunk URL f-string
`f'{server}/depot/{self.depot_id}/chunk/{chunk_id}{token}'`, where `server`
holds whatever string the loop variable currently holds. -/
def chunkUrl (serverVar : String) (depotId : Nat) (chunkId token : String) : String :=
  serverVar ++ "/depot/" ++ toString depotId ++ "/chunk/" ++ chunkId ++ token

/-- Loop-carried state of the HTTP retry loop of `ChunkDownload.get_chunk`:
the current string value of the `server` variable, the server ring, the URLs
attempted so far, and how many 500 ms sleeps were performed. -/
structure FetchState where
  serverVar : String
  ring : List String
  urls : List String
  sleeps : Nat
  deriving DecidableEq, Repr

/-- How the retry loop ended: an OK response broke the loop with a body, or
a 4xx status raised the permanent per-chunk `SteamError`. -/
inductive FetchOutcome where
  | success (st : FetchState) (body : List Nat)
  | clientError (st : FetchState) (code : Nat)
  deriving DecidableEq, Repr

/-- The HTTP retry loop of `ChunkDownload.get_chunk` (src/main.py lines
86-102), consuming one response per attempt from `resps` (`none` when the
responses run out with the loop still going).

The loop-carried `server` variable starts as the unpacked endpoint from the
initial `server, token = ...get_content_server()` call, but the retry line
`server = self.depot_downloader.get_content_server(rotate=True)` stores the
returned `(endpoint, token)` *tuple* without unpacking it, so from the
second attempt on the f-string interpolates Python's `str()` of that tuple
(`pyStrPair`).  The `token` variable keeps its initial value throughout;
`poolTok` is the token component of the pair the pool returns on the
rotating calls (the empty string in anonymous mode).  On a transport
exception: log, rotate, retry.  On a response: OK breaks the loop; a status
in [400, 500) raises; any other non-OK status sleeps 500 ms, rotates and
retries. -/
def fetchLoop (depotId : Nat) (chunkId token poolTok : String) :
    List HResp → FetchState → Option FetchOutcome
  | [], _ => none
  | r :: rs, st =>
    let st1 : FetchState :=
      { st with urls := st.urls ++ [chunkUrl st.serverVar depotId chunkId token] }
    match r with
    | .exc =>
      fetchLoop depotId chunkId token poolTok rs
        { st1 with
          ring := rotateLeft st1.ring
          serverVar := pyStrPair ((rotateLeft st1.ring).headD "") poolTok }
    | .status code body =>
      if code < 400 then some (.success st1 body)
      else if code < 500 then some (.clientError st1 code)
      else
        fetchLoop depotId chunkId token poolTok rs
          { st1 with
            ring := rotateLeft st1.ring
            serverVar := pyStrPair ((rotateLeft st1.ring).headD "") poolTok
            sleeps := st1.sleeps + 1 }

/-- `ChunkDownload.get_chunk` end to end: run the retry loop, then decrypt
the body with the depot key (`decrypt` models `symmetric_decrypt`) and
decode it with `decodeChunk`.  `none`: the response list ran out. -/
def getChunk (decrypt : List Nat → List Nat)
    (dec : List Nat → List Nat → List Nat)
    (unzip : List Nat → Option (List (List Nat)))
    (depotId : Nat) (chunkId token poolTok : String)
    (resps : List HResp) (st : FetchState) : Option (Except ChunkError (List Nat)) :=
  match fetchLoop depotId chunkId token poolTok resps st with
  | none => none
  | some (.clientError _ code) => some (.error (.httpClient code))
  | some (.success _ body) => some (decodeChunk dec unzip (decrypt body))

/-- Observable state-mutating steps of a worker job
(`ChunkDownload.download`, src/main.py lines 65-84), in program order. -/
inductive Ev where
  | acquireEngine
  | releaseEngine
  | bumpCounters (n : Nat)
  | acquireFile
  | releaseFile
  | openDenied
  | write (offset : Nat) (data : List Nat)
  | ledgerAppend (file key : String)
  | tqdmUpdate (n : Nat)
  deriving DecidableEq, Repr

/-- The event trace of a successful `ChunkDownload.download(chunk)` run for
the file `filepa`: under the engine lock, bump `download_size` and
`total_size` by `cb_original`; under the per-file lock, retry the open
`permFails` times against `PermissionError` and then seek and write the
plaintext at the chunk offset; then — under no lock — append the chunk key
to the ledger entry and update the progress bar. -/
def downloadEvents (filepa : String) (c : Chunk) (data : List Nat)
    (permFails : Nat) : List Ev :=
  [Ev.acquireEngine, Ev.bumpCounters c.cb_original, Ev.releaseEngine, Ev.acquireFile]
    ++ List.replicate permFails Ev.openDenied
    ++ [Ev.write c.offset data, Ev.releaseFile,
        Ev.ledgerAppend filepa (chunkKey c), Ev.tqdmUpdate c.cb_original]

/-- Whether every `ledgerAppend` in the trace occurs while the engine lock
is held (`d` is the current engine-lock depth). -/
def appendsUnderEngine : Nat → List Ev → Bool
  | _, [] => true
  | d, Ev.acquireEngine :: tl => appendsUnderEngine (d + 1) tl
  | d, Ev.releaseEngine :: tl => appendsUnderEngine (d - 1) tl
  | d, Ev.ledgerAppend _ _ :: tl => decide (0 < d) && appendsUnderEngine d tl
  | d, _ :: tl => appendsUnderEngine d tl

/-- Whether every `bumpCounters` in the trace occurs while the engine lock
is held. -/
def countersUnderEngine : Nat → List Ev → Bool
  | _, [] => true
  | d, Ev.acquireEngine :: tl => countersUnderEngine (d + 1) tl
  | d, Ev.releaseEngine :: tl => countersUnderEngine (d - 1) tl
  | d, Ev.bumpCounters _ :: tl => decide (0 < d) && countersUnderEngine d tl
  | d, _ :: tl => countersUnderEngine d tl

/-- Whether every `ledgerAppend` in the trace occurs after some positional
write has completed (`w`: a write has already been seen). -/
def appendAfterWrite : Bool → List Ev → Bool
  | _, [] => true
  | _, Ev.write _ _ :: tl => appendAfterWrite true tl
  | w, Ev.ledgerAppend _ _ :: tl => w && appendAfterWrite w tl
  | w, _ :: tl => appendAfterWrite w tl

/-- A full worker job (`ChunkDownload.download`): the call
`data = self.get_chunk(chunk_id)` with `chunk_id = chunk.sha.hex()` is the
first statement, so a fetch or decode error propagates before any state
mutation; on success, the mutation events of `downloadEvents` follow.  The
result pairs the mutation trace with the escaping error, if any. -/
def chunkJobTrace (decrypt : List Nat → List Nat)
    (dec : List Nat → List Nat → List Nat)
    (unzip : List Nat → Option (List (List Nat)))
    (depotId : Nat) (token poolTok : String)
    (resps : List HResp) (st : FetchState)
    (filepa : String) (c : Chunk) (permFails : Nat) :
    Option (List Ev × Option ChunkError) :=
  match getChunk decrypt dec unzip depotId (bytesHex c.sha) token poolTok resps st with
  | none => none
  | some (.error e) => some ([], some e)
  | some (.ok data) => some (downloadEvents filepa c data permFails, none)

/-- One attempt outcome inside the `while True` retry loop of
`DepotDownloader.update_cdn_token` (src/main.py lines 298-328): either the
try block produced a token record (the `.steamcontent.com` sentinel or the
collaborator's `get_cdn_auth_token` response), or it raised one of
`NameError`, `AttributeError`, `TypeError` (a missing or malformed token
object). -/
inductive TokenResp where
  | exc
  | tok (t : CdnToken)
  deriving DecidableEq, Repr

/-- How `update_cdn_token` ended: a token with result OK was stored and
returned, or the `SteamError` was raised after the retries ran out. -/
inductive RefreshOutcome where
  | ok (t : CdnToken)
  | err
  deriving DecidableEq, Repr

/-- The retry loop of `update_cdn_token`, reading attempt `i` from the
response stream `resps`, with `retry` retries left (initially 3) and `fuel`
loop iterations allowed; `none` means the loop was still running when the
fuel ran out.  A token whose `eresult` is OK (1) is stored and returned.  A
well-formed token with a non-OK result only logs a warning and loops — the
retry counter is NOT decremented on this path.  An exception reconnects and
decrements the counter, or raises `SteamError` when the counter is already
0. -/
def updateCdnTokenLoop (resps : Nat → TokenResp) :
    Nat → Nat → Nat → Option RefreshOutcome
  | 0, _, _ => none
  | fuel + 1, i, retry =>
    match resps i with
    | .tok t =>
      if t.eresult = 1 then some (.ok t)
      else updateCdnTokenLoop resps fuel (i + 1) retry
    | .exc =>
      if retry = 0 then some .err
      else updateCdnTokenLoop resps fuel (i + 1) (retry - 1)

end DepotDL

namespace DepotDL

/-- The chunk loop leaves the ledger and filesystem actions untouched,
appends exactly the chunks whose key is absent from the entry to the job
list, and adds the original sizes of the present ones to the progress
total. -/
theorem chunkLoop_spec (filepa : String) (L : List Chunk) (st : SchedState) :
    (chunkLoop filepa L st).chunkDict = st.chunkDict ∧
    (chunkLoop filepa L st).actions = st.actions ∧
    (chunkLoop filepa L st).saves = st.saves ∧
    (chunkLoop filepa L st).scheduled = st.scheduled ++
      (L.filter (fun c =>
        !(((dictLookup st.chunkDict filepa).getD []).contains (chunkKey c)))).map
        (fun c => (filepa, c)) ∧
    (chunkLoop filepa L st).totalSize = st.totalSize +
      ((L.filter (fun c =>
        ((dictLookup st.chunkDict filepa).getD []).contains (chunkKey c))).map
        Chunk.cb_original).sum := by
  induction L generalizing st with
  | nil => simp [chunkLoop]
  | cons c tl ih =>
    by_cases hc : ((dictLookup st.chunkDict filepa).getD []).contains (chunkKey c) = false
    · have := ih { st with scheduled := st.scheduled ++ [(filepa, c)] }
      simp_all [chunkLoop, List.foldl_cons]
    · have hc' : ((dictLookup st.chunkDict filepa).getD []).contains (chunkKey c) = true := by
        revert hc
        cases ((dictLookup st.chunkDict filepa).getD []).contains (chunkKey c) <;> simp
      have := ih { st with totalSize := st.totalSize + c.cb_original }
      simp_all [chunkLoop, List.foldl_cons, Nat.add_assoc]

/-- Sorting the chunks of a mapping does not change which chunks occur. -/
theorem mem_sortedChunks (m : Mapping) (c : Chunk) : c ∈ sortedChunks m ↔ c ∈ m.chunks :=
  (List.perm_insertionSort _ m.chunks).mem_iff

/-- The pre-chunk steps touch only the ledger, the action log and the save
counter: submitted jobs and the progress total are unchanged. -/
theorem preChunkState_frame (pe pa : String → Bool) (m : Mapping) (st : SchedState) :
    (preChunkState pe pa m st).scheduled = st.scheduled ∧
    (preChunkState pe pa m st).totalSize = st.totalSize := by
  unfold preChunkState
  dsimp only
  repeat' split
  all_goals simp

/-- For a directory-marker mapping the pre-chunk steps only initialise a
missing ledger entry: no filesystem action is performed. -/
theorem preChunkState_flags64 (pe pa : String → Bool) (m : Mapping) (st : SchedState)
    (h : m.flags = 64) :
    (preChunkState pe pa m st).actions = st.actions ∧
    (preChunkState pe pa m st).scheduled = st.scheduled := by
  unfold preChunkState
  dsimp only
  simp only [h]
  repeat' split
  all_goals simp_all

/-- C1: for a decrypted blob starting `VZ` with valid footer and version, the
codec reads the LZMA1 filter properties from bytes [7, 12), the CRC32 from
bytes [-10, -6) and the declared length from bytes [-6, -2) (little-endian),
decompresses bytes [12, -9), truncates to the declared length, and fails with
a CRC-mismatch error exactly when the CRC32 of the truncated result differs
from the stored checksum; otherwise it returns the truncated bytes. -/
theorem get_chunk_vz_decode_c1 (dec : List Nat → List Nat → List Nat)
    (unzip : List Nat → Option (List (List Nat))) (data : List Nat)
    (hlen : 21 ≤ data.length)
    (hvz : data.take 2 = [86, 90])
    (hfoot : lastN 2 data = [122, 118])
    (hver : (data.drop 2).take 1 = [97]) :
    decodeChunk dec unzip data =
      (let props := (data.drop 7).take 5
       let storedCrc := le32 ((data.drop (data.length - 10)).take 4)
       let declaredLen := le32 ((data.drop (data.length - 6)).take 4)
       let truncated := (dec props ((data.drop 12).take (data.length - 21))).take declaredLen
       if crc32 truncated = storedCrc then .ok truncated else .error .crcMismatch) := by
  have hsub : data.length - 9 - 12 = data.length - 21 := by omega
  have hfooter_take :
      ((lastN 10 data).take 8).take 4 = (data.drop (data.length - 10)).take 4 := by
    simp [lastN, List.take_take]
  have hfooter_drop :
      ((lastN 10 data).take 8).drop 4 = (data.drop (data.length - 6)).take 4 := by
    rw [lastN, List.drop_take, List.drop_drop]
    have h6 : data.length - 10 + 4 = data.length - 6 := by omega
    rw [h6]
  simp only [decodeChunk, hvz, if_pos rfl, hfoot, hver, ne_eq, not_true_eq_false,
    if_false, ite_not, hsub, hfooter_take, hfooter_drop]
  split <;> split <;> simp_all

/-- Witness for C1 at a concrete 22-byte blob (empty decompressed payload,
stored CRC 0 = crc32 of the empty list, declared length 0). -/
theorem get_chunk_vz_decode_c1_witness :
    decodeChunk (fun _ _ => []) (fun _ => none)
      [86, 90, 97, 0, 0, 0, 0, 1, 2, 3, 4, 5, 0, 0, 0, 0, 0, 0, 0, 0, 122, 118] =
      .ok [] := by
  rw [get_chunk_vz_decode_c1 (fun _ _ => []) (fun _ => none)
    [86, 90, 97, 0, 0, 0, 0, 1, 2, 3, 4, 5, 0, 0, 0, 0, 0, 0, 0, 0, 122, 118]
    (by decide) (by decide) (by decide) (by decide)]
  rfl

/-- C10: for a decrypted blob not starting with `VZ`, the codec returns the
uncompressed bytes of the first entry of the ZIP archive's file list; any
further entries are ignored rather than causing an error. -/
theorem get_chunk_zip_first_entry_c10 (dec : List Nat → List Nat → List Nat)
    (unzip : List Nat → Option (List (List Nat))) (data e : List Nat)
    (rest : List (List Nat))
    (hnz : data.take 2 ≠ [86, 90])
    (hz : unzip data = some (e :: rest)) :
    decodeChunk dec unzip data = .ok e := by
  simp [decodeChunk, hnz, hz]

/-- Witness for C10: a three-entry archive decodes to the first entry. -/
theorem get_chunk_zip_first_entry_c10_witness :
    decodeChunk (fun _ _ => []) (fun _ => some [[9], [8], [7]]) [1, 2, 3] = .ok [9] :=
  get_chunk_zip_first_entry_c10 (fun _ _ => []) (fun _ => some [[9], [8], [7]])
    [1, 2, 3] [9] [[8], [7]] (by decide) rfl

/-- C2: for every mapping and every chunk of it, a chunk whose ledger key is
already in the entry for the mapping's normalized path is not submitted to
the worker pool and its original size is counted toward the progress total;
every chunk whose key is absent is submitted. -/
theorem scheduler_ledger_skip_c2 (pe pa : String → Bool) (m : Mapping) (st : SchedState) :
    (processMapping pe pa m st).scheduled = st.scheduled ++
      ((sortedChunks m).filter (fun c =>
        !((schedEntry pe pa m st).contains (chunkKey c)))).map
        (fun c => (normPath m.filename, c)) ∧
    (processMapping pe pa m st).totalSize = st.totalSize +
      (((sortedChunks m).filter (fun c =>
        (schedEntry pe pa m st).contains (chunkKey c))).map Chunk.cb_original).sum ∧
    (∀ c ∈ m.chunks, (schedEntry pe pa m st).contains (chunkKey c) = false →
      (normPath m.filename, c) ∈ (processMapping pe pa m st).scheduled) ∧
    (∀ c ∈ m.chunks, (schedEntry pe pa m st).contains (chunkKey c) = true →
      ((normPath m.filename, c) ∈ (processMapping pe pa m st).scheduled ↔
        (normPath m.filename, c) ∈ st.scheduled)) := by
  obtain ⟨hd, -, -, hs, ht⟩ :=
    chunkLoop_spec (normPath m.filename) (sortedChunks m) (preChunkState pe pa m st)
  obtain ⟨hps, hpt⟩ := preChunkState_frame pe pa m st
  have hsched : (processMapping pe pa m st).scheduled = st.scheduled ++
      ((sortedChunks m).filter (fun c =>
        !((schedEntry pe pa m st).contains (chunkKey c)))).map
        (fun c => (normPath m.filename, c)) := by
    rw [processMapping, hs, hps]
    rfl
  refine ⟨hsched, ?_, ?_, ?_⟩
  · rw [processMapping, ht, hpt]
    rfl
  · intro c hc hkey
    rw [hsched]
    refine List.mem_append_right _ (List.mem_map.mpr ⟨c, ?_, rfl⟩)
    exact List.mem_filter.mpr ⟨(mem_sortedChunks m c).mpr hc, by simp only [hkey]; rfl⟩
  · intro c hc hkey
    rw [hsched, List.mem_append]
    constructor
    · rintro (h | h)
      · exact h
      · obtain ⟨c', hc', heq⟩ := List.mem_map.mp h
        obtain ⟨-, hkey'⟩ := List.mem_filter.mp hc'
        cases heq
        simp only [hkey] at hkey'
        simp at hkey'
    · exact Or.inl

/-- Witness for C2 at a concrete mapping with one ledgered and one new
chunk: only the new chunk is submitted, and the ledgered chunk's size is
added to the progress total. -/
theorem scheduler_ledger_skip_c2_witness :
    (processMapping (fun _ => true) (fun _ => true)
        ⟨"readme.txt", 0, 16, [⟨[170], 0, 8⟩, ⟨[187], 8, 8⟩]⟩
        ⟨[("readme.txt", ["0_aa"])], 0, [], [], 0⟩).scheduled =
      [("readme.txt", ⟨[187], 8, 8⟩)] ∧
    (processMapping (fun _ => true) (fun _ => true)
        ⟨"readme.txt", 0, 16, [⟨[170], 0, 8⟩, ⟨[187], 8, 8⟩]⟩
        ⟨[("readme.txt", ["0_aa"])], 0, [], [], 0⟩).totalSize = 8 := by
  obtain ⟨h1, h2, -, -⟩ := scheduler_ledger_skip_c2 (fun _ => true) (fun _ => true)
    ⟨"readme.txt", 0, 16, [⟨[170], 0, 8⟩, ⟨[187], 8, 8⟩]⟩
    ⟨[("readme.txt", ["0_aa"])], 0, [], [], 0⟩
  refine ⟨?_, ?_⟩
  · rw [h1]; decide
  · rw [h2]; decide

/-- Counterexample to C3: for the directory-marker mapping `"sub\dir"`
(flags 64) carrying one chunk, on a filesystem where nothing exists yet, the
scheduler performs no filesystem action at all — in particular it does not
create the directory — and it still submits the chunk to the worker pool. -/
theorem dir_marker_claim_false_c3 :
    (processMapping (fun _ => false) (fun _ => false)
        ⟨"sub\\dir", 64, 16, [⟨[170], 0, 16⟩]⟩ ⟨[], 0, [], [], 0⟩).actions = [] ∧
    (processMapping (fun _ => false) (fun _ => false)
        ⟨"sub\\dir", 64, 16, [⟨[170], 0, 16⟩]⟩ ⟨[], 0, [], [], 0⟩).scheduled =
      [("sub/dir", ⟨[170], 0, 16⟩)] := by
  decide

/-- C3 as amended: for every mapping with flags == 64 the scheduler performs
no filesystem action for that mapping (it neither creates the directory nor
materializes a file), and the mapping's chunks are still submitted or
skipped by the same ledger rule that applies to regular files. -/
theorem dir_marker_no_fs_action_c3 (pe pa : String → Bool) (m : Mapping)
    (st : SchedState) (h : m.flags = 64) :
    (processMapping pe pa m st).actions = st.actions ∧
    (processMapping pe pa m st).scheduled = st.scheduled ++
      ((sortedChunks m).filter (fun c =>
        !((schedEntry pe pa m st).contains (chunkKey c)))).map
        (fun c => (normPath m.filename, c)) := by
  obtain ⟨-, ha, -, hs, -⟩ :=
    chunkLoop_spec (normPath m.filename) (sortedChunks m) (preChunkState pe pa m st)
  obtain ⟨ha64, -⟩ := preChunkState_flags64 pe pa m st h
  obtain ⟨hps, -⟩ := preChunkState_frame pe pa m st
  refine ⟨?_, ?_⟩
  · rw [processMapping, ha, ha64]
  · rw [processMapping, hs, hps]
    rfl

/-- Witness for C3 (amended) at a chunk-free directory marker: no action and
no job. -/
theorem dir_marker_no_fs_action_c3_witness :
    (processMapping (fun _ => false) (fun _ => false)
        ⟨"sub\\dir", 64, 0, []⟩ ⟨[], 0, [], [], 0⟩).actions = [] ∧
    (processMapping (fun _ => false) (fun _ => false)
        ⟨"sub\\dir", 64, 0, []⟩ ⟨[], 0, [], [], 0⟩).scheduled = [] := by
  obtain ⟨h1, h2⟩ := dir_marker_no_fs_action_c3 (fun _ => false) (fun _ => false)
    ⟨"sub\\dir", 64, 0, []⟩ ⟨[], 0, [], [], 0⟩ rfl
  exact ⟨h1, by rw [h2]; decide⟩

/-- Moving the head to the tail is a rotate-left by one. -/
theorem rotateLeft_eq_rotate_one (l : List α) : rotateLeft l = l.rotate 1 := by
  cases l with
  | nil => rfl
  | cons a tl =>
    rw [rotateLeft, List.rotate_eq_drop_append_take]
    simp

/-- K rotating acquires rotate the ring left K times. -/
theorem ringAfter_eq_rotate (K : Nat) (l : List String) : ringAfter K l = l.rotate K := by
  induction K generalizing l with
  | zero => simp [ringAfter, List.rotate_zero]
  | succ k ih =>
    rw [ringAfter, Function.iterate_succ_apply, ← ringAfter, ih,
      rotateLeft_eq_rotate_one, List.rotate_rotate, Nat.add_comm]

/-- C4: on a non-empty ring, after K calls to `get_content_server` with
`rotate=True` the head of the ring — which is exactly what the K-th call
returned — is the endpoint that sat at index K mod M in the original ring;
and each rotating call first moves the head to the tail and then returns
the new head. -/
theorem pool_rotation_c4 (ring : List String) (K : Nat) (h : ring ≠ []) :
    (ringAfter K ring).head? = ring[K % ring.length]? ∧
    (∀ l : List String, acquireServer l true = ((rotateLeft l).head?, rotateLeft l)) := by
  refine ⟨?_, fun l => rfl⟩
  rw [ringAfter_eq_rotate, ← List.rotate_mod]
  exact List.head?_rotate (Nat.mod_lt _ (List.length_pos.mpr h))

/-- Witness for C4: four rotating acquires on a three-endpoint ring land on
index 4 mod 3 = 1. -/
theorem pool_rotation_c4_witness :
    (ringAfter 4 ["a", "b", "c"]).head? = some "b" := by
  rw [(pool_rotation_c4 ["a", "b", "c"] 4 (by decide)).1]
  decide

/-- Counterexample to C5: at time 1000 the head endpoint `"a"` holds a token
expiring at 1030 (30 s left, so a synchronous refresh is attempted); the
refresh fails, and the fallback scan picks the first map entry whose result
status is OK — which is the stale token of `"a"` itself.  The returned
token has nonzero expiration less than 60 s in the future, violating the
claimed freshness bound. -/
theorem token_freshness_claim_false_c5 :
    acquireToken 1000 none false
        [("a", ⟨"ta", 1030, 1⟩), ("b", ⟨"tb", 1001, 1⟩)] "a" =
      some ⟨"a", ⟨"ta", 1030, 1⟩, false⟩ ∧
    (1030 : Nat) ≠ 0 ∧ (1030 : Int) - 1000 < 60 := by
  refine ⟨?_, by decide, by decide⟩
  decide

/-- C5 as amended: a returned token either satisfies the freshness bound
(zero expiration or at least 60 s left), or is exactly what the synchronous
refresh produced — returned without an expiration check — or is a token-map
entry whose result status is OK, substituted on refresh failure without any
expiration check. -/
theorem token_freshness_c5_amended (now : Int) (refresh : Option CdnToken)
    (updating : Bool) (tokens : List (String × CdnToken)) (s : String)
    (out : AcquireOut) (h : acquireToken now refresh updating tokens s = some out) :
    out.tok.expiration_time = 0 ∨ 60 ≤ (out.tok.expiration_time : Int) - now ∨
    refresh = some out.tok ∨
    ((out.server, out.tok) ∈ tokens ∧ out.tok.eresult = 1) := by
  unfold acquireToken at h
  cases hl : lookupToken tokens s with
  | none => simp [hl] at h
  | some t0 =>
    simp only [hl] at h
    by_cases he : t0.eresult ≠ 1
    · simp [if_pos he] at h
    · rw [if_neg he] at h
      by_cases hz : t0.expiration_time ≠ 0
      · rw [if_pos hz] at h
        by_cases hlt : (t0.expiration_time : Int) - now < 60
        · rw [if_pos hlt] at h
          cases refresh with
          | some t1 =>
            have h' := Option.some.inj h
            subst h'
            exact Or.inr (Or.inr (Or.inl rfl))
          | none =>
            cases hf : tokens.find? (fun p => p.2.eresult == 1) with
            | none => simp [hf] at h
            | some p =>
              simp only [hf] at h
              have h' := Option.some.inj h
              subst h'
              refine Or.inr (Or.inr (Or.inr ⟨List.mem_of_find?_eq_some hf, ?_⟩))
              have hp := List.find?_some hf
              simpa using hp
        · rw [if_neg hlt] at h
          push_neg at hlt
          split at h <;>
            (have h' := Option.some.inj h; subst h'; exact Or.inr (Or.inl hlt))
      · rw [if_neg hz] at h
        push_neg at hz
        have h' := Option.some.inj h
        subst h'
        exact Or.inl hz

/-- Witness for C5 (amended): a zero-expiration sentinel token is returned
unchanged and satisfies the first disjunct. -/
theorem token_freshness_c5_amended_witness :
    (⟨"a", ⟨"", 0, 1⟩, false⟩ : AcquireOut).tok.expiration_time = 0 ∨
    60 ≤ ((⟨"a", ⟨"", 0, 1⟩, false⟩ : AcquireOut).tok.expiration_time : Int) - 1000 ∨
    (none : Option CdnToken) = some (⟨"a", ⟨"", 0, 1⟩, false⟩ : AcquireOut).tok ∨
    (((⟨"a", ⟨"", 0, 1⟩, false⟩ : AcquireOut).server,
      (⟨"a", ⟨"", 0, 1⟩, false⟩ : AcquireOut).tok) ∈
        [("a", (⟨"", 0, 1⟩ : CdnToken))] ∧
      (⟨"a", ⟨"", 0, 1⟩, false⟩ : AcquireOut).tok.eresult = 1) :=
  token_freshness_c5_amended 1000 none false [("a", ⟨"", 0, 1⟩)] "a"
    ⟨"a", ⟨"", 0, 1⟩, false⟩ (by decide)

/-- C6, evaluated at the failing input: ring `["http://a", "http://b"]`,
first response HTTP 500, second HTTP 200.  One 500 ms sleep and one
rotation happen as claimed, and a 404 fails permanently as claimed — but
the retry URL is built from Python's `str()` of the `(endpoint, token)`
tuple returned by `get_content_server(rotate=True)` (the retry assignment
never unpacks the pair), not from the newly acquired endpoint. -/
theorem http_retry_tuple_url_c6 :
    fetchLoop 1 "ab" "" "" [HResp.status 500 [], HResp.status 200 [1]]
        ⟨"http://a", ["http://a", "http://b"], [], 0⟩ =
      some (.success ⟨"('http://b', '')", ["http://b", "http://a"],
        ["http://a/depot/1/chunk/ab", "('http://b', '')/depot/1/chunk/ab"], 1⟩ [1]) ∧
    "('http://b', '')/depot/1/chunk/ab" ≠ "http://b/depot/1/chunk/ab" ∧
    fetchLoop 1 "ab" "" "" [HResp.status 404 []]
        ⟨"http://a", ["http://a", "http://b"], [], 0⟩ =
      some (.clientError ⟨"http://a", ["http://a", "http://b"],
        ["http://a/depot/1/chunk/ab"], 0⟩ 404) := by
  refine ⟨by decide, by decide, by decide⟩

/-- Counterexample to C7: with a collaborator that always returns a
well-formed token whose result status is not OK (eresult 2), the refresh
loop has not terminated after 100 iterations — though the claim promises
failure after at most 3 retries — and one loop iteration from the initial
state returns to the very same retry counter, so the loop never exits. -/
theorem refresh_termination_claim_false_c7 :
    updateCdnTokenLoop (fun _ => TokenResp.tok ⟨"x", 0, 2⟩) 100 0 3 = none ∧
    updateCdnTokenLoop (fun _ => TokenResp.tok ⟨"x", 0, 2⟩) 101 0 3 =
      updateCdnTokenLoop (fun _ => TokenResp.tok ⟨"x", 0, 2⟩) 100 1 3 := by
  exact ⟨by decide, rfl⟩

/-- C7 as amended: the refresh loop retries at most 3 times when attempts
fail by raising (missing or malformed token object), reconnecting between
attempts and failing with `SteamError` on the fourth raise; but when the
collaborator repeatedly returns a well-formed token whose result status is
not OK, the retry counter is never decremented and the loop does not
terminate. -/
theorem refresh_retry_c7 :
    (∀ resps : Nat → TokenResp, (∀ j, resps j = TokenResp.exc) →
      updateCdnTokenLoop resps 4 0 3 = some RefreshOutcome.err) ∧
    (∀ resps : Nat → TokenResp,
      (∀ j, ∃ t, resps j = TokenResp.tok t ∧ t.eresult ≠ 1) →
      ∀ fuel i retry, updateCdnTokenLoop resps fuel i retry = none) := by
  constructor
  · have key : ∀ (r : Nat) (resps : Nat → TokenResp), (∀ j, resps j = TokenResp.exc) →
        ∀ i, updateCdnTokenLoop resps (r + 1) i r = some RefreshOutcome.err := by
      intro r
      induction r with
      | zero => intro resps hr i; simp [updateCdnTokenLoop, hr i]
      | succ n ih =>
        intro resps hr i
        rw [updateCdnTokenLoop, hr i]
        simp only [Nat.succ_ne_zero, if_false]
        exact ih resps hr (i + 1)
    exact fun resps hr => key 3 resps hr 0
  · intro resps hr fuel
    induction fuel with
    | zero => intro i retry; rfl
    | succ n ih =>
      intro i retry
      obtain ⟨t, ht, hne⟩ := hr i
      rw [updateCdnTokenLoop, ht]
      simp only [if_neg hne]
      exact ih (i + 1) retry

/-- Witness for C7 (amended): the always-raising stream fails with the
error after the initial attempt plus 3 retries. -/
theorem refresh_retry_c7_witness :
    updateCdnTokenLoop (fun _ => TokenResp.exc) 4 0 3 = some RefreshOutcome.err :=
  refresh_retry_c7.1 (fun _ => TokenResp.exc) (fun _ => rfl)

/-- Counterexample to C8: in the worker's trace the ledger append runs
after the engine lock was released — under no lock at all — so the claim
that the append is performed while holding the engine lock is false. -/
theorem ledger_append_lock_claim_false_c8 :
    appendsUnderEngine 0 (downloadEvents "readme.txt" ⟨[170], 0, 16⟩ [1] 0) = false := by
  decide

/-- The open-retry spins change no lock depth and are no-ops for the
ledger-append checker. -/
theorem appendsUnderEngine_replicate (d k : Nat) (rest : List Ev) :
    appendsUnderEngine d (List.replicate k Ev.openDenied ++ rest) =
      appendsUnderEngine d rest := by
  induction k with
  | zero => rfl
  | succ n ih => simpa [List.replicate_succ, appendsUnderEngine] using ih

/-- The open-retry spins are no-ops for the counter checker. -/
theorem countersUnderEngine_replicate (d k : Nat) (rest : List Ev) :
    countersUnderEngine d (List.replicate k Ev.openDenied ++ rest) =
      countersUnderEngine d rest := by
  induction k with
  | zero => rfl
  | succ n ih => simpa [List.replicate_succ, countersUnderEngine] using ih

/-- The open-retry spins are no-ops for the write-before-append checker. -/
theorem appendAfterWrite_replicate (w : Bool) (k : Nat) (rest : List Ev) :
    appendAfterWrite w (List.replicate k Ev.openDenied ++ rest) =
      appendAfterWrite w rest := by
  induction k with
  | zero => rfl
  | succ n ih => simpa [List.replicate_succ, appendAfterWrite] using ih

/-- C8 as amended: in every successful worker job the progress counters are
updated while holding the engine lock (before the write), and the ledger
append happens after the positional write completes but NOT under the
engine lock — it is performed with no lock held. -/
theorem ledger_append_order_c8 (filepa : String) (c : Chunk) (data : List Nat)
    (permFails : Nat) :
    appendsUnderEngine 0 (downloadEvents filepa c data permFails) = false ∧
    countersUnderEngine 0 (downloadEvents filepa c data permFails) = true ∧
    appendAfterWrite false (downloadEvents filepa c data permFails) = true := by
  refine ⟨?_, ?_, ?_⟩ <;>
    simp [downloadEvents, appendsUnderEngine, countersUnderEngine, appendAfterWrite,
      appendsUnderEngine_replicate, countersUnderEngine_replicate,
      appendAfterWrite_replicate]

/-- Witness for C8 (amended) at a concrete chunk with two open retries. -/
theorem ledger_append_order_c8_witness :
    appendsUnderEngine 0 (downloadEvents "f" ⟨[187], 8, 8⟩ [2] 2) = false ∧
    countersUnderEngine 0 (downloadEvents "f" ⟨[187], 8, 8⟩ [2] 2) = true ∧
    appendAfterWrite false (downloadEvents "f" ⟨[187], 8, 8⟩ [2] 2) = true :=
  ledger_append_order_c8 "f" ⟨[187], 8, 8⟩ [2] 2

/-- C9: when fetching or decoding raises (HTTP 4xx, bad VZ footer,
unsupported VZ version, CRC mismatch, or a ZIP failure), the worker job
terminates with an empty mutation trace: the ledger entry, the progress
counters and the target file are untouched — every mutation happens only
after `get_chunk` returns successfully. -/
theorem error_atomicity_c9 (decrypt : List Nat → List Nat)
    (dec : List Nat → List Nat → List Nat)
    (unzip : List Nat → Option (List (List Nat)))
    (depotId : Nat) (token poolTok : String) (resps : List HResp)
    (st : FetchState) (filepa : String) (c : Chunk) (permFails : Nat)
    (tr : List Ev) (e : ChunkError)
    (h : chunkJobTrace decrypt dec unzip depotId token poolTok resps st filepa c permFails =
      some (tr, some e)) : tr = [] := by
  unfold chunkJobTrace at h
  cases hg : getChunk decrypt dec unzip depotId (bytesHex c.sha) token poolTok resps st with
  | none => simp [hg] at h
  | some r =>
    simp only [hg] at h
    cases r with
    | error e1 => exact (congrArg Prod.fst (Option.some.inj h)).symm
    | ok data =>
      exact absurd (congrArg Prod.snd (Option.some.inj h)) (by simp)

/-- Witness for C9 at a 404 response: the job fails with the permanent
client error and its mutation trace is empty. -/
theorem error_atomicity_c9_witness : ([] : List Ev) = [] :=
  error_atomicity_c9 (fun x => x) (fun _ _ => []) (fun _ => none) 1 "" ""
    [HResp.status 404 []] ⟨"http://a", ["http://a"], [], 0⟩ "f" ⟨[170], 0, 16⟩ 0
    [] (ChunkError.httpClient 404) (by decide)

end DepotDL
